import Mathlib

/-!
Shallow embedding of the scheduling core of the TTGOPlantNanny firmware
(TTGOPlantNanny.ino, version 0.18, together with its settings header).

The embedding models:
  * the category translation tables (translateContainerSize,
    translateWateringFreq, translateWateringAmount);
  * the global schedule state (containerSizeCat, remainingWaterML,
    wateringFreqCat, nextWateringH, wateringAmountCat), with the
    int16_t fields modelled as Int together with explicit two's
    complement wrapping at 16 bits;
  * the hourly tick path of loop() (decrement every countdown, then
    waterIfDue) together with the pump activations it performs;
  * the remaining-duration simulation of drawMainArea (scrMain branch),
    whose scratch countdowns are uint16_t and therefore modelled as
    Nat reduced mod 2^16;
  * the pump-scoped command handling of mqttCallback, with the
    preference store modelled as a record and the (possibly out of
    bounds) in-memory array writes modelled via Option.
-/

namespace PlantNanny

/-! ### Constants from settings.h (the revision used by the v0.18 sketch) -/

def NUMBER_OF_PUMPS : Nat := 4

-- water container sizes in milliliter
def CONTAINER_SIZE_SMALL : Int := 2000  -- mqtt value 1
def CONTAINER_SIZE_TALL : Int := 3000   -- mqtt value 2
def CONTAINER_SIZE_FLAT : Int := 5200   -- mqtt value 3
def CONTAINER_SIZE_BIG : Int := 8000    -- mqtt value 4

-- water pump throughput for defined amounts in milliseconds
def PUMP_25ML : Int := 1100   -- mqtt value 1
def PUMP_50ML : Int := 1800   -- mqtt value 2
def PUMP_75ML : Int := 2400   -- mqtt value 3
def PUMP_100ML : Int := 2800  -- mqtt value 4

-- watering frequencies in hours
def WATERING_FREQ_OFF : Int := 0           -- mqtt value 0
def WATERING_FREQ_VERY_SELDOM : Int := 168 -- mqtt value 1
def WATERING_FREQ_SELDOM : Int := 72       -- mqtt value 2
def WATERING_FREQ_NORMAL : Int := 48       -- mqtt value 3
def WATERING_FREQ_OFTEN : Int := 24        -- mqtt value 4

/-! ### Machine-integer helpers

The firmware stores the schedule state in int16_t variables and the
simulation scratch countdowns in uint16_t variables.  We model int16_t
values as Int with explicit two's complement wrapping, and uint16_t
values as Nat reduced mod 2^16. -/

/-- Two's complement wrap of an integer to the int16_t range. -/
def wrap16s (x : Int) : Int := (x + 32768) % 65536 - 32768

/-- Bit pattern of an int16_t value reinterpreted as uint16_t
(the conversion applied when an int16_t is assigned to a uint16_t). -/
def u16 (x : Int) : Nat := (x % 65536).toNat

/-! ### A fixed four-element vector, one entry per pump slot

The firmware declares `int16_t wateringFreqCat[NUMBER_OF_PUMPS]` and
friends; we use a four-field structure so that states have decidable
equality and concrete states evaluate by `decide`. -/

structure Pump4 (α : Type) where
  p0 : α
  p1 : α
  p2 : α
  p3 : α
deriving DecidableEq, Repr

def Pump4.get {α : Type} (v : Pump4 α) : Fin 4 → α
  | ⟨0, _⟩ => v.p0
  | ⟨1, _⟩ => v.p1
  | ⟨2, _⟩ => v.p2
  | ⟨3, _⟩ => v.p3

def Pump4.set {α : Type} (v : Pump4 α) : Fin 4 → α → Pump4 α
  | ⟨0, _⟩, x => { v with p0 := x }
  | ⟨1, _⟩, x => { v with p1 := x }
  | ⟨2, _⟩, x => { v with p2 := x }
  | ⟨3, _⟩, x => { v with p3 := x }

/-! ### The data stored in preferences / held in the global variables -/

structure ScheduleState where
  containerSizeCat : Int              -- category 1, 2, 3, 4
  remainingWaterML : Int              -- in milliliter
  wateringFreqCat : Pump4 Int         -- category 0, 1, 2, 3, 4
  nextWateringH : Pump4 Int           -- in hours
  wateringAmountCat : Pump4 Int       -- category 1, 2, 3, 4
deriving DecidableEq, Repr

/-! ### Category translation tables -/

/-- translateContainerSize from the sketch: a switch on the category with
cases 1, 2, 3 and a default branch yielding the big container. -/
def translateContainerSize (category : Int) : Int :=
  if category = 1 then CONTAINER_SIZE_SMALL
  else if category = 2 then CONTAINER_SIZE_TALL
  else if category = 3 then CONTAINER_SIZE_FLAT
  else CONTAINER_SIZE_BIG

/-- translateWateringFreq from the sketch: a switch on the category with
cases 0, 1, 2, 3 and a default branch yielding the often frequency. -/
def translateWateringFreq (category : Int) : Int :=
  if category = 0 then WATERING_FREQ_OFF
  else if category = 1 then WATERING_FREQ_VERY_SELDOM
  else if category = 2 then WATERING_FREQ_SELDOM
  else if category = 3 then WATERING_FREQ_NORMAL
  else WATERING_FREQ_OFTEN

/-- translateWateringAmount from the sketch: a switch on the category with
cases 1, 2, 3 and a default branch yielding the 100 ml pump time. -/
def translateWateringAmount (category : Int) : Int :=
  if category = 1 then PUMP_25ML
  else if category = 2 then PUMP_50ML
  else if category = 3 then PUMP_75ML
  else PUMP_100ML

/-- The switch on wateringAmountCat that deducts milliliters from the
remaining water; it appears verbatim both in waterIfDue and in the
drawMainArea simulation (cases 1, 2, 3, default). -/
def amountML (cat : Int) : Int :=
  if cat = 1 then 25
  else if cat = 2 then 50
  else if cat = 3 then 75
  else 100

/-! ### waterIfDue: the due-pump evaluator -/

/-- One iteration of the waterIfDue loop body for slot i: if the slot's
countdown is ≤ 0 the pump output is driven (reported as the Bool),
the amount is deducted from remainingWaterML and the countdown is
re-armed from translateWateringFreq.  All assignments to the int16_t
globals wrap at 16 bits. -/
def waterSlot (s : ScheduleState) (i : Fin 4) : ScheduleState × Bool :=
  if s.nextWateringH.get i ≤ 0 then
    ({ s with
        remainingWaterML :=
          wrap16s (s.remainingWaterML - amountML (s.wateringAmountCat.get i)),
        nextWateringH :=
          s.nextWateringH.set i
            (wrap16s (translateWateringFreq (s.wateringFreqCat.get i))) },
     true)
  else (s, false)

/-- waterIfDue from the sketch: process slots 0..3 in order, returning the
new state together with the list of pump slots whose output was driven
low (activated) during the pass. -/
def waterIfDue (s0 : ScheduleState) : ScheduleState × List (Fin 4) :=
  let r0 := waterSlot s0 0
  let r1 := waterSlot r0.1 1
  let r2 := waterSlot r1.1 2
  let r3 := waterSlot r2.1 3
  (r3.1,
    (if r0.2 then [(0 : Fin 4)] else []) ++
    (if r1.2 then [(1 : Fin 4)] else []) ++
    (if r2.2 then [(2 : Fin 4)] else []) ++
    (if r3.2 then [(3 : Fin 4)] else []))

/-- Decrement every nextWateringH entry by one (int16_t arithmetic), as
done by the full-hour branch of loop(). -/
def decAll (v : Pump4 Int) : Pump4 Int :=
  ⟨wrap16s (v.p0 - 1), wrap16s (v.p1 - 1), wrap16s (v.p2 - 1), wrap16s (v.p3 - 1)⟩

/-- The full-hour branch of loop(): if the tank is empty nothing happens;
otherwise every countdown is decremented and waterIfDue runs. -/
def hourlyTick (s : ScheduleState) : ScheduleState × List (Fin 4) :=
  if s.remainingWaterML ≤ 0 then (s, [])
  else waterIfDue { s with nextWateringH := decAll s.nextWateringH }

/-! ### drawMainArea: the remaining-duration simulation (scrMain branch)

The sketch copies remainingWaterML into an int16_t scratch variable and
the four nextWateringH values into uint16_t scratch variables, then
loops: while the scratch water is positive, each slot's scratch
countdown is decremented (uint16_t arithmetic, so 0 wraps to 65535);
a slot whose decremented countdown satisfies the `<= 0` test (on
uint16_t: equals 0) deducts its amount and re-arms its countdown from
translateWateringFreq; the hour counter advances once per outer
iteration.  The loop in Lean carries explicit fuel; the termination
theorem below shows a computable fuel bound that always suffices. -/

/-- One slot of the inner for-loop of the simulation: decrement the
uint16_t scratch countdown, and if the result is 0 (the uint16_t
reading of `<= 0`) deduct the slot's amount from the scratch water and
re-arm the countdown. -/
def simSlot (freqCat amtCat : Int) (rc : Int × Nat) : Int × Nat :=
  let c1 := (rc.2 + 65535) % 65536
  if c1 = 0 then
    (wrap16s (rc.1 - amountML amtCat), u16 (translateWateringFreq freqCat))
  else (rc.1, c1)

/-- One outer iteration of the simulation loop: process the four slots in
order, threading the scratch water through. -/
def simHourStep (s : ScheduleState) (rem : Int) (c : Pump4 Nat) : Int × Pump4 Nat :=
  let t0 := simSlot s.wateringFreqCat.p0 s.wateringAmountCat.p0 (rem, c.p0)
  let t1 := simSlot s.wateringFreqCat.p1 s.wateringAmountCat.p1 (t0.1, c.p1)
  let t2 := simSlot s.wateringFreqCat.p2 s.wateringAmountCat.p2 (t1.1, c.p2)
  let t3 := simSlot s.wateringFreqCat.p3 s.wateringAmountCat.p3 (t2.1, c.p3)
  (t3.1, ⟨t0.2, t1.2, t2.2, t3.2⟩)

/-- The simulation's while loop, with explicit fuel: returns the final
simHours counter, or none if the fuel runs out before the scratch
water is exhausted. -/
def simLoop (s : ScheduleState) : Nat → Int → Pump4 Nat → Nat → Option Nat
  | 0, rem, _, hours => if rem ≤ 0 then some hours else none
  | fuel + 1, rem, c, hours =>
      if rem ≤ 0 then some hours
      else
        simLoop s fuel (simHourStep s rem c).1 (simHourStep s rem c).2 (hours + 1)

/-- A fuel bound sufficient for the simulation loop to run to completion,
derived from the termination measure proved below. -/
def simFuel (rem : Int) (c0 : Nat) : Nat :=
  rem.toNat * 65537 + (if c0 = 0 then 65536 else c0) + 1

/-- The scratch countdowns at simulation start: the int16_t values of
nextWateringH assigned to uint16_t variables. -/
def simInit (s : ScheduleState) : Pump4 Nat :=
  ⟨u16 s.nextWateringH.p0, u16 s.nextWateringH.p1,
   u16 s.nextWateringH.p2, u16 s.nextWateringH.p3⟩

/-- The simulated hours computed by the scrMain branch of drawMainArea. -/
def simWateringHours (s : ScheduleState) : Option Nat :=
  simLoop s (simFuel s.remainingWaterML (u16 s.nextWateringH.p0))
    s.remainingWaterML (simInit s) 0

/-- simDays = simHours / 24 (integer division), the day count displayed
by drawMainArea. -/
def simWateringDays (s : ScheduleState) : Option Nat :=
  (simWateringHours s).map (fun h => h / 24)

/-! ### The preference store and the pump-scoped MQTT commands

The preference namespace "nanny" holds the container size ("cs"), the
remaining water ("rw") and, per pump k in 1..4, the keys "p<k>wf"
(frequency category), "p<k>nw" (next watering hours) and "p<k>wa"
(amount category).  loadPrefs reads key "p<k>…" into array index k-1,
so store slot j below corresponds to key "p<j+1>…". -/

structure PrefsStore where
  cs : Int                -- PREF_CONTAINER_SIZE
  rw : Int                -- PREF_REMAINING_WATER
  wf : Pump4 Int          -- PREF_P1_WATERING_FREQ .. PREF_P4_WATERING_FREQ
  nw : Pump4 Int          -- PREF_P1_NEXT_WATERING .. PREF_P4_NEXT_WATERING
  wa : Pump4 Int          -- PREF_P1_WATERING_AMOUNT .. PREF_P4_WATERING_AMOUNT
deriving DecidableEq, Repr

/-- The switch(pump) in mqttCallback that selects which preference key to
write: case 1 writes the pump-1 key (store slot 0), …, case 4 writes the
pump-4 key (store slot 3); any other value matches no case and writes
nothing. -/
def prefsPutPumpSlot (v : Pump4 Int) (pump x : Int) : Pump4 Int :=
  if pump = 1 then { v with p0 := x }
  else if pump = 2 then { v with p1 := x }
  else if pump = 3 then { v with p2 := x }
  else if pump = 4 then { v with p3 := x }
  else v

/-- A raw C array write at an arbitrary integer index into a 4-element
int16_t array, as in `wateringFreqCat[pump] = intValue`.  An index
outside 0..3 is an out-of-bounds write (undefined behaviour), modelled
as none. -/
def Pump4.setAt (v : Pump4 Int) (idx : Int) (x : Int) : Option (Pump4 Int) :=
  if idx = 0 then some { v with p0 := x }
  else if idx = 1 then some { v with p1 := x }
  else if idx = 2 then some { v with p2 := x }
  else if idx = 3 then some { v with p3 := x }
  else none

/-- The three pump-scoped command kinds of the MQTT interface. -/
inductive PumpCmd where
  | freq      -- mqttCmndFreq, "command-freq"
  | next      -- mqttCmndNext, "command-next"
  | amount    -- mqttCmndAmount, "command-amount"
deriving DecidableEq, Repr

/-- The pump-scoped portion of mqttCallback: after the topic yields a pump
number and a command, the callback rejects pump numbers outside
1..NUMBER_OF_PUMPS (logging only, state untouched); otherwise it writes
intValue to the selected pump's preference key via switch(pump) and
then assigns `array[pump] = intValue` on the matching in-memory array
(note: the raw index used is pump, not pump-1).  The assignment to the
int16_t array narrows intValue; the result is none when that in-memory
write is out of bounds. -/
def mqttPumpScoped (cmd : PumpCmd) (p : PrefsStore) (s : ScheduleState)
    (pump intValue : Int) : Option (PrefsStore × ScheduleState) :=
  if pump ≤ 0 ∨ pump > (NUMBER_OF_PUMPS : Int) then some (p, s)
  else
    match cmd with
    | PumpCmd.freq =>
        let p2 := { p with wf := prefsPutPumpSlot p.wf pump intValue }
        (Pump4.setAt s.wateringFreqCat pump (wrap16s intValue)).map
          (fun a => (p2, { s with wateringFreqCat := a }))
    | PumpCmd.next =>
        let p2 := { p with nw := prefsPutPumpSlot p.nw pump intValue }
        (Pump4.setAt s.nextWateringH pump (wrap16s intValue)).map
          (fun a => (p2, { s with nextWateringH := a }))
    | PumpCmd.amount =>
        let p2 := { p with wa := prefsPutPumpSlot p.wa pump intValue }
        (Pump4.setAt s.wateringAmountCat pump (wrap16s intValue)).map
          (fun a => (p2, { s with wateringAmountCat := a }))

/-! ### drawMainArea, scrMain branch, as a whole

The branch reads the globals into scratch variables, runs the
simulation loop on the scratch copies only, and draws the day count;
no global schedule state and no preference is written, so the embedded
function returns the displayed day count together with the (unchanged)
globals and preference store. -/

def drawMainAreaScrMain (s : ScheduleState) (p : PrefsStore) :
    Option Nat × ScheduleState × PrefsStore :=
  (simWateringDays s, s, p)

/-! ### Concrete states used by the claim witnesses and counterexamples -/

/-- A state whose pump 0 is disabled (frequency category 0) with its
countdown one hour from the due threshold; plenty of water. -/
def stateC1 : ScheduleState :=
  { containerSizeCat := 2, remainingWaterML := 1000,
    wateringFreqCat := ⟨0, 3, 3, 3⟩,
    nextWateringH := ⟨1, 100, 100, 100⟩,
    wateringAmountCat := ⟨2, 2, 2, 2⟩ }

/-- A preference store holding the defaults. -/
def prefsC2 : PrefsStore :=
  { cs := 2, rw := 1000,
    wf := ⟨3, 3, 3, 3⟩, nw := ⟨48, 48, 48, 48⟩, wa := ⟨2, 2, 2, 2⟩ }

/-- A state in which every pump's frequency category is 3. -/
def stateC2 : ScheduleState :=
  { containerSizeCat := 2, remainingWaterML := 1000,
    wateringFreqCat := ⟨3, 3, 3, 3⟩,
    nextWateringH := ⟨48, 48, 48, 48⟩,
    wateringAmountCat := ⟨2, 2, 2, 2⟩ }

/-- An empty-tank state with nonzero countdowns. -/
def stateC3 : ScheduleState :=
  { containerSizeCat := 2, remainingWaterML := 0,
    wateringFreqCat := ⟨3, 3, 3, 3⟩,
    nextWateringH := ⟨5, 0, -2, 7⟩,
    wateringAmountCat := ⟨2, 2, 2, 2⟩ }

/-- All four slots disabled, positive water, every countdown about to
reach the due threshold, maximal amounts. -/
def stateC4 : ScheduleState :=
  { containerSizeCat := 2, remainingWaterML := 50,
    wateringFreqCat := ⟨0, 0, 0, 0⟩,
    nextWateringH := ⟨1, 1, 1, 1⟩,
    wateringAmountCat := ⟨4, 4, 4, 4⟩ }

/-- remainingWaterML = 100, pump 1 due with amount category 2 (50 ml),
all other pumps not due. -/
def stateC5 : ScheduleState :=
  { containerSizeCat := 2, remainingWaterML := 100,
    wateringFreqCat := ⟨3, 1, 2, 4⟩,
    nextWateringH := ⟨0, 13, 27, 41⟩,
    wateringAmountCat := ⟨2, 1, 3, 4⟩ }

/-- The end-to-end scenario of the spec: 4200 ml of water, all four pumps
with frequency category 3 (48 h) and amount category 2 (50 ml), all
countdowns at the full 48-hour interval. -/
def stateC6 : ScheduleState :=
  { containerSizeCat := 2, remainingWaterML := 4200,
    wateringFreqCat := ⟨3, 3, 3, 3⟩,
    nextWateringH := ⟨48, 48, 48, 48⟩,
    wateringAmountCat := ⟨2, 2, 2, 2⟩ }

/-- Positive water with pump 0's countdown already at 0: the live tick
fires pump 0, while the uint16_t scratch countdown of the simulation
wraps to 65535 instead. -/
def stateC10 : ScheduleState :=
  { containerSizeCat := 2, remainingWaterML := 100,
    wateringFreqCat := ⟨3, 3, 3, 3⟩,
    nextWateringH := ⟨0, 10, 10, 10⟩,
    wateringAmountCat := ⟨1, 1, 1, 1⟩ }

/-- All countdowns at least 1 hour: the regime in which the simulation
step and the live tick agree. -/
def stateC10W : ScheduleState :=
  { containerSizeCat := 2, remainingWaterML := 100,
    wateringFreqCat := ⟨3, 0, 2, 4⟩,
    nextWateringH := ⟨1, 2, 48, 100⟩,
    wateringAmountCat := ⟨1, 2, 3, 4⟩ }

/-! ### Helper lemmas -/

theorem wrap16s_eq_self (x : Int) (h1 : -32768 ≤ x) (h2 : x ≤ 32767) :
    wrap16s x = x := by
  unfold wrap16s; omega

theorem u16_lt (x : Int) : u16 x < 65536 := by
  unfold u16; omega

theorem u16_of_small (x : Int) (h1 : 0 ≤ x) (h2 : x ≤ 65535) :
    (u16 x : Int) = x := by
  unfold u16; omega

theorem amountML_bounds (c : Int) : 25 ≤ amountML c ∧ amountML c ≤ 100 := by
  unfold amountML; split_ifs <;> omega

theorem translateWateringFreq_bounds (c : Int) :
    0 ≤ translateWateringFreq c ∧ translateWateringFreq c ≤ 168 := by
  unfold translateWateringFreq WATERING_FREQ_OFF WATERING_FREQ_VERY_SELDOM
    WATERING_FREQ_SELDOM WATERING_FREQ_NORMAL WATERING_FREQ_OFTEN
  split_ifs <;> omega

theorem waterIfDue_state (s : ScheduleState) :
    (waterIfDue s).1 =
      (waterSlot (waterSlot (waterSlot (waterSlot s 0).1 1).1 2).1 3).1 := rfl

theorem waterSlot_0_state (s : ScheduleState) :
    (waterSlot s 0).1 =
      { s with
          remainingWaterML :=
            if s.nextWateringH.p0 ≤ 0 then
              wrap16s (s.remainingWaterML - amountML s.wateringAmountCat.p0)
            else s.remainingWaterML,
          nextWateringH :=
            { s.nextWateringH with
                p0 := if s.nextWateringH.p0 ≤ 0 then
                        wrap16s (translateWateringFreq s.wateringFreqCat.p0)
                      else s.nextWateringH.p0 } } := by
  unfold waterSlot
  rw [show s.nextWateringH.get 0 = s.nextWateringH.p0 from rfl,
      show s.wateringAmountCat.get 0 = s.wateringAmountCat.p0 from rfl,
      show s.wateringFreqCat.get 0 = s.wateringFreqCat.p0 from rfl]
  split_ifs with h
  · rfl
  · rfl

theorem waterSlot_1_state (s : ScheduleState) :
    (waterSlot s 1).1 =
      { s with
          remainingWaterML :=
            if s.nextWateringH.p1 ≤ 0 then
              wrap16s (s.remainingWaterML - amountML s.wateringAmountCat.p1)
            else s.remainingWaterML,
          nextWateringH :=
            { s.nextWateringH with
                p1 := if s.nextWateringH.p1 ≤ 0 then
                        wrap16s (translateWateringFreq s.wateringFreqCat.p1)
                      else s.nextWateringH.p1 } } := by
  unfold waterSlot
  rw [show s.nextWateringH.get 1 = s.nextWateringH.p1 from rfl,
      show s.wateringAmountCat.get 1 = s.wateringAmountCat.p1 from rfl,
      show s.wateringFreqCat.get 1 = s.wateringFreqCat.p1 from rfl]
  split_ifs with h
  · rfl
  · rfl

theorem waterSlot_2_state (s : ScheduleState) :
    (waterSlot s 2).1 =
      { s with
          remainingWaterML :=
            if s.nextWateringH.p2 ≤ 0 then
              wrap16s (s.remainingWaterML - amountML s.wateringAmountCat.p2)
            else s.remainingWaterML,
          nextWateringH :=
            { s.nextWateringH with
                p2 := if s.nextWateringH.p2 ≤ 0 then
                        wrap16s (translateWateringFreq s.wateringFreqCat.p2)
                      else s.nextWateringH.p2 } } := by
  unfold waterSlot
  rw [show s.nextWateringH.get 2 = s.nextWateringH.p2 from rfl,
      show s.wateringAmountCat.get 2 = s.wateringAmountCat.p2 from rfl,
      show s.wateringFreqCat.get 2 = s.wateringFreqCat.p2 from rfl]
  split_ifs with h
  · rfl
  · rfl

theorem waterSlot_3_state (s : ScheduleState) :
    (waterSlot s 3).1 =
      { s with
          remainingWaterML :=
            if s.nextWateringH.p3 ≤ 0 then
              wrap16s (s.remainingWaterML - amountML s.wateringAmountCat.p3)
            else s.remainingWaterML,
          nextWateringH :=
            { s.nextWateringH with
                p3 := if s.nextWateringH.p3 ≤ 0 then
                        wrap16s (translateWateringFreq s.wateringFreqCat.p3)
                      else s.nextWateringH.p3 } } := by
  unfold waterSlot
  rw [show s.nextWateringH.get 3 = s.nextWateringH.p3 from rfl,
      show s.wateringAmountCat.get 3 = s.wateringAmountCat.p3 from rfl,
      show s.wateringFreqCat.get 3 = s.wateringFreqCat.p3 from rfl]
  split_ifs with h
  · rfl
  · rfl

theorem simSlot_fst (f a r : Int) (c : Nat) :
    (simSlot f a (r, c)).1 =
      if (c + 65535) % 65536 = 0 then wrap16s (r - amountML a) else r := by
  unfold simSlot
  dsimp only
  split_ifs with h
  · rfl
  · rfl

theorem simSlot_snd (f a r : Int) (c : Nat) :
    (simSlot f a (r, c)).2 =
      if (c + 65535) % 65536 = 0 then u16 (translateWateringFreq f)
      else (c + 65535) % 65536 := by
  unfold simSlot
  dsimp only
  split_ifs with h
  · rfl
  · rfl

theorem simSlot_rem_le (f a r : Int) (c : Nat)
    (h1 : -32668 ≤ r) (h2 : r ≤ 32767) :
    (simSlot f a (r, c)).1 ≤ r ∧ r - 100 ≤ (simSlot f a (r, c)).1 := by
  have ha := amountML_bounds a
  unfold simSlot wrap16s
  dsimp only
  split_ifs with h
  · dsimp only; constructor <;> omega
  · dsimp only; constructor <;> omega

/-- Termination of the drawMainArea simulation loop: every slot fires at
least once in any window of 65536 iterations (its uint16_t countdown
passes through 0), and each firing deducts at least 25 ml, so the
measure rem.toNat * 65537 + slot-0-phase strictly decreases each hour
and the given fuel bound always suffices. -/
theorem simLoop_measure_total (s : ScheduleState) :
    ∀ fuel : Nat, ∀ rem : Int, ∀ c : Pump4 Nat, ∀ hours : Nat,
      rem ≤ 32767 →
      rem.toNat * 65537 + (if c.p0 = 0 then 65536 else c.p0) < fuel →
      ∃ n, simLoop s fuel rem c hours = some n := by
  intro fuel
  induction fuel with
  | zero => exact fun rem c hours _ h2 => absurd h2 (Nat.not_lt_zero _)
  | succ m ih =>
    intro rem c hours h1 h2
    by_cases hr : rem ≤ 0
    · exact ⟨hours, by simp [simLoop, hr]⟩
    · push_neg at hr
      rcases e0 : simSlot s.wateringFreqCat.p0 s.wateringAmountCat.p0 (rem, c.p0) with ⟨q0, d0⟩
      rcases e1 : simSlot s.wateringFreqCat.p1 s.wateringAmountCat.p1 (q0, c.p1) with ⟨q1, d1⟩
      rcases e2 : simSlot s.wateringFreqCat.p2 s.wateringAmountCat.p2 (q1, c.p2) with ⟨q2, d2⟩
      rcases e3 : simSlot s.wateringFreqCat.p3 s.wateringAmountCat.p3 (q2, c.p3) with ⟨q3, d3⟩
      have B0 := simSlot_rem_le s.wateringFreqCat.p0 s.wateringAmountCat.p0 rem c.p0
        (by omega) (by omega)
      rw [e0] at B0; dsimp only at B0
      have B1 := simSlot_rem_le s.wateringFreqCat.p1 s.wateringAmountCat.p1 q0 c.p1
        (by omega) (by omega)
      rw [e1] at B1; dsimp only at B1
      have B2 := simSlot_rem_le s.wateringFreqCat.p2 s.wateringAmountCat.p2 q1 c.p2
        (by omega) (by omega)
      rw [e2] at B2; dsimp only at B2
      have B3 := simSlot_rem_le s.wateringFreqCat.p3 s.wateringAmountCat.p3 q2 c.p3
        (by omega) (by omega)
      rw [e3] at B3; dsimp only at B3
      have hstep : simHourStep s rem c = (q3, ⟨d0, d1, d2, d3⟩) := by
        simp only [simHourStep]
        rw [e0]; dsimp only; rw [e1]; dsimp only; rw [e2]; dsimp only; rw [e3]
      have hloop : simLoop s (m + 1) rem c hours
          = simLoop s m q3 ⟨d0, d1, d2, d3⟩ (hours + 1) := by
        simp only [simLoop]
        rw [if_neg (by omega), hstep]
      rw [hloop]
      by_cases hf : (c.p0 + 65535) % 65536 = 0
      · have e0' : simSlot s.wateringFreqCat.p0 s.wateringAmountCat.p0 (rem, c.p0)
            = (wrap16s (rem - amountML s.wateringAmountCat.p0),
               u16 (translateWateringFreq s.wateringFreqCat.p0)) := by
          simp only [simSlot]
          rw [if_pos hf]
        rw [e0] at e0'
        injection e0' with hq0 hd0
        have ha := amountML_bounds s.wateringAmountCat.p0
        have hw : wrap16s (rem - amountML s.wateringAmountCat.p0)
            = rem - amountML s.wateringAmountCat.p0 :=
          wrap16s_eq_self _ (by omega) (by omega)
        have hd0lt : d0 < 65536 := by rw [hd0]; exact u16_lt _
        refine ih q3 ⟨d0, d1, d2, d3⟩ (hours + 1) (by omega) ?_
        have hq : q3 ≤ rem - 25 := by omega
        dsimp only
        split_ifs at h2 ⊢ <;> omega
      · have e0' : simSlot s.wateringFreqCat.p0 s.wateringAmountCat.p0 (rem, c.p0)
            = (rem, (c.p0 + 65535) % 65536) := by
          simp only [simSlot]
          rw [if_neg hf]
        rw [e0] at e0'
        injection e0' with hq0 hd0
        refine ih q3 ⟨d0, d1, d2, d3⟩ (hours + 1) (by omega) ?_
        dsimp only
        split_ifs at h2 ⊢ <;> omega

/-! ### Claim theorems -/

/-- Claim C8, confirmed: for every category outside the defined range
(outside 1..4 for translateContainerSize and translateWateringAmount,
outside 0..4 for translateWateringFreq), the translation functions
return the value of the default/highest bucket, i.e. the value of
category 4, and never fail (they are total). -/
theorem C8_out_of_range_default_bucket (category : Int) :
    ((category < 1 ∨ 4 < category) →
        translateContainerSize category = translateContainerSize 4 ∧
        translateWateringAmount category = translateWateringAmount 4) ∧
    ((category < 0 ∨ 4 < category) →
        translateWateringFreq category = translateWateringFreq 4) := by
  refine ⟨fun h => ⟨?_, ?_⟩, fun h => ?_⟩
  · have h4 : translateContainerSize 4 = CONTAINER_SIZE_BIG := by decide
    rw [h4]; unfold translateContainerSize
    rw [if_neg (by omega), if_neg (by omega), if_neg (by omega)]
  · have h4 : translateWateringAmount 4 = PUMP_100ML := by decide
    rw [h4]; unfold translateWateringAmount
    rw [if_neg (by omega), if_neg (by omega), if_neg (by omega)]
  · have h4 : translateWateringFreq 4 = WATERING_FREQ_OFTEN := by decide
    rw [h4]; unfold translateWateringFreq
    rw [if_neg (by omega), if_neg (by omega), if_neg (by omega),
        if_neg (by omega)]

theorem C8_witness :
    ((5 : Int) < 1 ∨ 4 < (5 : Int)) ∧
    translateContainerSize 5 = translateContainerSize 4 ∧
    translateWateringAmount 5 = translateWateringAmount 4 ∧
    translateWateringFreq (-1) = translateWateringFreq 4 :=
  ⟨Or.inr (by decide),
   ((C8_out_of_range_default_bucket 5).1 (Or.inr (by decide))).1,
   ((C8_out_of_range_default_bucket 5).1 (Or.inr (by decide))).2,
   (C8_out_of_range_default_bucket (-1)).2 (Or.inl (by decide))⟩

/-- Claim C3, confirmed: when remainingWaterML ≤ 0 the full-hour path
activates no pump and leaves every nextWateringH value (in fact the
whole state) unchanged. -/
theorem C3_empty_budget_tick_is_noop (s : ScheduleState)
    (h : s.remainingWaterML ≤ 0) :
    (hourlyTick s).2 = [] ∧
    (hourlyTick s).1.nextWateringH = s.nextWateringH ∧
    (hourlyTick s).1 = s := by
  unfold hourlyTick
  rw [if_pos h]
  exact ⟨rfl, rfl, rfl⟩

theorem C3_witness :
    stateC3.remainingWaterML ≤ 0 ∧
    (hourlyTick stateC3).2 = [] ∧
    (hourlyTick stateC3).1.nextWateringH = stateC3.nextWateringH ∧
    (hourlyTick stateC3).1 = stateC3 :=
  ⟨by decide, (C3_empty_budget_tick_is_noop stateC3 (by decide)).1,
   (C3_empty_budget_tick_is_noop stateC3 (by decide)).2.1,
   (C3_empty_budget_tick_is_noop stateC3 (by decide)).2.2⟩

/-- Claim C1 is violated by the code: translateWateringFreq maps the
disabled category 0 to WATERING_FREQ_OFF = 0 hours, so a slot with
frequency category 0 becomes due as soon as its countdown reaches 0
and is then activated on that hourly tick and on every following one
(the countdown is re-armed to 0 each time).  Evaluated on stateC1
(pump 0 disabled, countdown 1): pump 0 is activated on the first tick
and again on the second. -/
theorem C1_disabled_pump_fires :
    translateWateringFreq 0 = 0 ∧
    (0 : Fin 4) ∈ (hourlyTick stateC1).2 ∧
    (0 : Fin 4) ∈ (hourlyTick (hourlyTick stateC1).1).2 := by decide

/-- Claim C2 is violated by the code: for the accepted set-frequency
command with pump index 1 and value 4, the preference key for pump 1
receives 4, but the in-memory array assignment uses index pump (= 1)
instead of pump-1 (= 0), so pump 1's in-memory entry keeps its old
value 3 while pump 2's entry is clobbered with 4. -/
theorem C2_in_memory_update_misses_slot :
    (mqttPumpScoped PumpCmd.freq prefsC2 stateC2 1 4).map
        (fun r => (r.1.wf.p0, r.2.wateringFreqCat.p0, r.2.wateringFreqCat.p1))
      = some (4, 3, 4) := by decide

/-- Claim C9 is violated by the code: for the accepted pump index 4 the
in-memory assignments of mqttCallback write array index 4, one past
the end of the 4-element arrays, for all three pump-scoped commands
(modelled as the out-of-bounds result none). -/
theorem C9_pump4_write_out_of_bounds :
    mqttPumpScoped PumpCmd.freq prefsC2 stateC2 4 1 = none ∧
    mqttPumpScoped PumpCmd.next prefsC2 stateC2 4 1 = none ∧
    mqttPumpScoped PumpCmd.amount prefsC2 stateC2 4 1 = none := by decide

set_option maxRecDepth 100000 in
/-- Claim C6, confirmed: on the end-to-end scenario (4200 ml, all pumps
48 h / 50 ml, countdowns at 48) the drawMainArea simulation exhausts
the water after exactly 1008 simulated hours and displays 42 days. -/
theorem C6_end_to_end_42_days :
    simWateringHours stateC6 = some 1008 ∧
    simWateringDays stateC6 = some 42 := by decide

/-- Claim C7, confirmed: the scrMain branch of drawMainArea computes the
day count on scratch copies only: it leaves the schedule state and the
preference store unchanged, and running it again on the resulting
state yields the same day count. -/
theorem C7_projector_pure_and_idempotent (s : ScheduleState) (p : PrefsStore) :
    (drawMainAreaScrMain s p).2.1 = s ∧
    (drawMainAreaScrMain s p).2.2 = p ∧
    (drawMainAreaScrMain (drawMainAreaScrMain s p).2.1
        (drawMainAreaScrMain s p).2.2).1 = (drawMainAreaScrMain s p).1 :=
  ⟨rfl, rfl, rfl⟩

/-- Claim C5, confirmed: with remainingWaterML = 100 and exactly one due
slot j (countdown 0, amount category 2, all other slots not due), one
waterIfDue pass leaves remainingWaterML = 50 and re-arms slot j's
countdown to translateWateringFreq of its frequency category. -/
theorem C5_due_pump_deduction_and_rearm (s : ScheduleState) (j : Fin 4)
    (hrem : s.remainingWaterML = 100)
    (hdue : s.nextWateringH.get j = 0)
    (hamt : s.wateringAmountCat.get j = 2)
    (hothers : ∀ k : Fin 4, k ≠ j → 0 < s.nextWateringH.get k) :
    (waterIfDue s).1.remainingWaterML = 50 ∧
    (waterIfDue s).1.nextWateringH.get j =
      translateWateringFreq (s.wateringFreqCat.get j) := by
  obtain ⟨cs, r, ⟨f0, f1, f2, f3⟩, ⟨x0, x1, x2, x3⟩, ⟨a0, a1, a2, a3⟩⟩ := s
  subst hrem
  fin_cases j
  · have h1 := hothers 1 (by decide)
    have h2 := hothers 2 (by decide)
    have h3 := hothers 3 (by decide)
    simp only [Pump4.get] at hdue hamt h1 h2 h3 ⊢
    subst hdue hamt
    have tb := translateWateringFreq_bounds f0
    simp only [waterIfDue, waterSlot, Pump4.get, Pump4.set]
    rw [if_pos (by omega : (0:Int) ≤ 0)]
    dsimp only
    rw [if_neg (by omega : ¬ (x1 ≤ 0))]
    dsimp only
    rw [if_neg (by omega : ¬ (x2 ≤ 0))]
    dsimp only
    rw [if_neg (by omega : ¬ (x3 ≤ 0))]
    dsimp only
    exact ⟨by decide, wrap16s_eq_self _ (by omega) (by omega)⟩
  · have h0 := hothers 0 (by decide)
    have h2 := hothers 2 (by decide)
    have h3 := hothers 3 (by decide)
    simp only [Pump4.get] at hdue hamt h0 h2 h3 ⊢
    subst hdue hamt
    have tb := translateWateringFreq_bounds f1
    simp only [waterIfDue, waterSlot, Pump4.get, Pump4.set]
    rw [if_neg (by omega : ¬ (x0 ≤ 0))]
    dsimp only
    rw [if_pos (by omega : (0:Int) ≤ 0)]
    dsimp only
    rw [if_neg (by omega : ¬ (x2 ≤ 0))]
    dsimp only
    rw [if_neg (by omega : ¬ (x3 ≤ 0))]
    dsimp only
    exact ⟨by decide, wrap16s_eq_self _ (by omega) (by omega)⟩
  · have h0 := hothers 0 (by decide)
    have h1 := hothers 1 (by decide)
    have h3 := hothers 3 (by decide)
    simp only [Pump4.get] at hdue hamt h0 h1 h3 ⊢
    subst hdue hamt
    have tb := translateWateringFreq_bounds f2
    simp only [waterIfDue, waterSlot, Pump4.get, Pump4.set]
    rw [if_neg (by omega : ¬ (x0 ≤ 0))]
    dsimp only
    rw [if_neg (by omega : ¬ (x1 ≤ 0))]
    dsimp only
    rw [if_pos (by omega : (0:Int) ≤ 0)]
    dsimp only
    rw [if_neg (by omega : ¬ (x3 ≤ 0))]
    dsimp only
    exact ⟨by decide, wrap16s_eq_self _ (by omega) (by omega)⟩
  · have h0 := hothers 0 (by decide)
    have h1 := hothers 1 (by decide)
    have h2 := hothers 2 (by decide)
    simp only [Pump4.get] at hdue hamt h0 h1 h2 ⊢
    subst hdue hamt
    have tb := translateWateringFreq_bounds f3
    simp only [waterIfDue, waterSlot, Pump4.get, Pump4.set]
    rw [if_neg (by omega : ¬ (x0 ≤ 0))]
    dsimp only
    rw [if_neg (by omega : ¬ (x1 ≤ 0))]
    dsimp only
    rw [if_neg (by omega : ¬ (x2 ≤ 0))]
    dsimp only
    rw [if_pos (by omega : (0:Int) ≤ 0)]
    dsimp only
    exact ⟨by decide, wrap16s_eq_self _ (by omega) (by omega)⟩

theorem C5_witness :
    stateC5.remainingWaterML = 100 ∧
    stateC5.nextWateringH.get 0 = 0 ∧
    stateC5.wateringAmountCat.get 0 = 2 ∧
    (waterIfDue stateC5).1.remainingWaterML = 50 ∧
    (waterIfDue stateC5).1.nextWateringH.get 0 =
      translateWateringFreq (stateC5.wateringFreqCat.get 0) :=
  ⟨by decide, by decide, by decide,
   (C5_due_pump_deduction_and_rearm stateC5 0 (by decide) (by decide) (by decide)
      (by decide)).1,
   (C5_due_pump_deduction_and_rearm stateC5 0 (by decide) (by decide) (by decide)
      (by decide)).2⟩

/-- Claim C4 as stated is false: on stateC4 every slot is disabled and
water remains, yet the simulation terminates after one simulated hour
(the four disabled slots themselves deduct water) and drawMainArea
displays the finite day count 0 — there is no indefinite sentinel. -/
theorem C4_counterexample :
    stateC4.wateringFreqCat = ⟨0, 0, 0, 0⟩ ∧
    0 < stateC4.remainingWaterML ∧
    simWateringDays stateC4 = some 0 := by decide

/-- Claim C4, amended: with all four slots disabled and water remaining,
the drawMainArea simulation does not loop forever — it terminates and
reports a finite day count (the disabled slots themselves deduct
water, each firing once per 65536 simulated hours through the uint16_t
countdown wraparound); no indefinite sentinel exists in the code. -/
theorem C4_all_disabled_projection_finite (s : ScheduleState)
    (hd : s.wateringFreqCat = ⟨0, 0, 0, 0⟩)
    (h0 : 0 < s.remainingWaterML) (h1 : s.remainingWaterML ≤ 32767) :
    ∃ n, simWateringDays s = some n := by
  have hm : s.remainingWaterML.toNat * 65537 +
      (if (simInit s).p0 = 0 then 65536 else (simInit s).p0) <
      simFuel s.remainingWaterML (u16 s.nextWateringH.p0) := by
    unfold simFuel simInit
    dsimp only
    split_ifs <;> omega
  obtain ⟨n, hn⟩ := simLoop_measure_total s
    (simFuel s.remainingWaterML (u16 s.nextWateringH.p0))
    s.remainingWaterML (simInit s) 0 h1 hm
  refine ⟨n / 24, ?_⟩
  unfold simWateringDays simWateringHours
  rw [hn]
  rfl

theorem C4_witness : ∃ n, simWateringDays stateC4 = some n :=
  C4_all_disabled_projection_finite stateC4 rfl (by decide) (by decide)

/-- Claim C10 as stated is false: on stateC10 (remainingWaterML = 100 > 0,
pump 0 countdown 0) the live hourly tick fires pump 0 and deducts
25 ml, while the simulation's uint16_t scratch countdown wraps from 0
to 65535 and deducts nothing, so the two disagree. -/
theorem C10_counterexample :
    0 < stateC10.remainingWaterML ∧
    (simHourStep stateC10 stateC10.remainingWaterML (simInit stateC10)).1 ≠
      (hourlyTick stateC10).1.remainingWaterML := by decide

set_option maxHeartbeats 1600000 in
set_option maxRecDepth 10000 in
/-- Claim C10, amended: when remainingWaterML > 0 and every countdown lies
in 1..32767, one outer iteration of the drawMainArea simulation
computes the same remaining water and the same new countdown values
(read back as integers) as one live hourly tick (decrement of every
nextWateringH followed by waterIfDue), despite the simulation using
uint16_t scratch countdowns.  (For countdowns ≤ 0 the two sides
genuinely disagree, see the counterexample.) -/
theorem C10_single_hour_sim_matches_tick (s : ScheduleState)
    (hrem : 0 < s.remainingWaterML)
    (g0 : 1 ≤ s.nextWateringH.p0) (g0b : s.nextWateringH.p0 ≤ 32767)
    (g1 : 1 ≤ s.nextWateringH.p1) (g1b : s.nextWateringH.p1 ≤ 32767)
    (g2 : 1 ≤ s.nextWateringH.p2) (g2b : s.nextWateringH.p2 ≤ 32767)
    (g3 : 1 ≤ s.nextWateringH.p3) (g3b : s.nextWateringH.p3 ≤ 32767) :
    (simHourStep s s.remainingWaterML (simInit s)).1
        = (hourlyTick s).1.remainingWaterML ∧
    ((simHourStep s s.remainingWaterML (simInit s)).2.p0 : Int)
        = (hourlyTick s).1.nextWateringH.p0 ∧
    ((simHourStep s s.remainingWaterML (simInit s)).2.p1 : Int)
        = (hourlyTick s).1.nextWateringH.p1 ∧
    ((simHourStep s s.remainingWaterML (simInit s)).2.p2 : Int)
        = (hourlyTick s).1.nextWateringH.p2 ∧
    ((simHourStep s s.remainingWaterML (simInit s)).2.p3 : Int)
        = (hourlyTick s).1.nextWateringH.p3 := by
  obtain ⟨cs, r, ⟨f0, f1, f2, f3⟩, ⟨x0, x1, x2, x3⟩, ⟨a0, a1, a2, a3⟩⟩ := s
  dsimp only at *
  have t0 := translateWateringFreq_bounds f0
  have t1 := translateWateringFreq_bounds f1
  have t2 := translateWateringFreq_bounds f2
  have t3 := translateWateringFreq_bounds f3
  have hc0 : ((u16 x0 + 65535) % 65536 = 0) ↔ (wrap16s (x0 - 1) ≤ 0) := by
    unfold u16 wrap16s; omega
  have hc1 : ((u16 x1 + 65535) % 65536 = 0) ↔ (wrap16s (x1 - 1) ≤ 0) := by
    unfold u16 wrap16s; omega
  have hc2 : ((u16 x2 + 65535) % 65536 = 0) ↔ (wrap16s (x2 - 1) ≤ 0) := by
    unfold u16 wrap16s; omega
  have hc3 : ((u16 x3 + 65535) % 65536 = 0) ↔ (wrap16s (x3 - 1) ≤ 0) := by
    unfold u16 wrap16s; omega
  unfold hourlyTick
  rw [if_neg (by omega : ¬ (r ≤ 0))]
  simp only [waterIfDue_state, waterSlot_0_state, waterSlot_1_state,
    waterSlot_2_state, waterSlot_3_state, decAll,
    simHourStep, simSlot_fst, simSlot_snd, simInit]
  simp only [hc0, hc1, hc2, hc3]
  simp only [u16, wrap16s]
  refine ⟨trivial, ?_, ?_, ?_, ?_⟩ <;> split_ifs <;> omega

theorem C10_witness :
    (simHourStep stateC10W stateC10W.remainingWaterML (simInit stateC10W)).1
        = (hourlyTick stateC10W).1.remainingWaterML ∧
    ((simHourStep stateC10W stateC10W.remainingWaterML (simInit stateC10W)).2.p0 : Int)
        = (hourlyTick stateC10W).1.nextWateringH.p0 ∧
    ((simHourStep stateC10W stateC10W.remainingWaterML (simInit stateC10W)).2.p1 : Int)
        = (hourlyTick stateC10W).1.nextWateringH.p1 ∧
    ((simHourStep stateC10W stateC10W.remainingWaterML (simInit stateC10W)).2.p2 : Int)
        = (hourlyTick stateC10W).1.nextWateringH.p2 ∧
    ((simHourStep stateC10W stateC10W.remainingWaterML (simInit stateC10W)).2.p3 : Int)
        = (hourlyTick stateC10W).1.nextWateringH.p3 :=
  C10_single_hour_sim_matches_tick stateC10W (by decide) (by decide) (by decide)
    (by decide) (by decide) (by decide) (by decide) (by decide) (by decide)

end PlantNanny
